import Mathlib

/-!
# Verification of the Steam download-speed monitor

A shallow embedding, in Lean 4, of the observable logic of
`steam_download_monitor.py`: manifest key-value parsing, the
downloaded-bytes extraction with its candidate-key fallback chain, the
active-download directory scan, the log-based pause heuristic, and the
per-item poll step of `main` (delta/rate computation against the prior
state and the status classification).

File-system interaction is modelled by passing the observed data in
explicitly: a manifest is `none` (absent or unreadable file) or `some`
list of the `"key" "value"` regex matches found in its text, in document
order; a directory candidate carries the outcome of walking it; a log
file is `none` (absent, or the read raised) or `some` text.
-/

set_option autoImplicit false

namespace SteamMonitor

/-- First-match association-list lookup: Python `dict` membership/`get` over
the per-`appid` state stores, with later insertions placed at the head. -/
def lookupA {β : Type} : List (String × β) → String → Option β
  | [], _ => none
  | p :: rest, k => if p.1 = k then some p.2 else lookupA rest k

/-- Boolean "`pat` starts `hay`" on character lists. -/
def listStarts : List Char → List Char → Bool
  | _, [] => true
  | [], _ :: _ => false
  | c :: cs, p :: ps => (c == p) && listStarts cs ps

/-- Boolean substring occurrence on character lists: Python's `pat in hay`. -/
def listHas : List Char → List Char → Bool
  | [], pat => pat.isEmpty
  | c :: cs, pat => listStarts (c :: cs) pat || listHas cs pat

/-- Python `pat in hay` on strings (substring containment). -/
def strHas (hay pat : String) : Bool := listHas hay.data pat.data

/-- Python `str.isdigit` restricted to ASCII decimal digits: nonempty and
every character a digit. -/
def isdigit (s : String) : Bool := !s.data.isEmpty && s.data.all Char.isDigit

/-- Python `str.strip()` on a character list: whitespace removed from both
ends. -/
def trimChars (cs : List Char) : List Char :=
  ((cs.dropWhile Char.isWhitespace).reverse.dropWhile Char.isWhitespace).reverse

/-- Python `str.strip()`. -/
def trimStr (s : String) : String := ⟨trimChars s.data⟩

/-- Split a character list at newline characters (Python `str.splitlines`,
with `'\n'` as the line terminator). -/
def splitOnNl : List Char → List (List Char)
  | [] => [[]]
  | c :: cs =>
      let r := splitOnNl cs
      if c = '\n' then [] :: r
      else
        match r with
        | [] => [[c]]
        | l :: ls => (c :: l) :: ls

/-- Python `"\n".join(lines)` on character lists. -/
def joinNl : List (List Char) → List Char
  | [] => []
  | [l] => l
  | l :: ls => l ++ '\n' :: joinNl ls

/-- Python `l[-n:]`: the last `n` elements. -/
def lastN {α : Type} (n : ℕ) (l : List α) : List α := l.drop (l.length - n)

/-- Python `int(s)` on a string of decimal digits. -/
def strToNat (s : String) : ℕ := s.data.foldl (fun n c => 10 * n + (c.toNat - 48)) 0

/-!
## Key-value manifest reader (`parse_manifest_kv`, lines 95–111)
-/

/-- `parse_manifest_kv`: given `none` (absent or unreadable manifest) return
the empty mapping; given the list of `"key" "value"` regex matches of the
text, build the dict by inserting each trimmed pair in order (Python
`kv[k] = v`; the head of the list is the most recent insertion, so
`lookupA` realises the dict's last-write-wins lookup). -/
def parse_manifest_kv (file : Option (List (String × String))) : List (String × String) :=
  match file with
  | none => []
  | some ms => ms.foldl (fun kv m => (trimStr m.1, trimStr m.2) :: kv) []

/-- The candidate keys tried, in order, by `get_downloaded_bytes_from_manifest`
(lines 116–123). -/
def candidates : List String :=
  ["BytesDownloaded", "bytesdownloaded", "DownloadedBytes",
   "downloaded_bytes", "BytesToDownload", "SizeOnDisk"]

/-- One iteration of the candidate-key loop (lines 125–130): if `key` is in
`kv` and its raw string value is purely numeric, the parsed integer;
otherwise nothing (the loop falls through to the next key). -/
def manifestIntField (kv : List (String × String)) (key : String) : Option ℕ :=
  match lookupA kv key with
  | some s => if isdigit s then some (strToNat s) else none
  | none => none

/-- `get_downloaded_bytes_from_manifest` (lines 113–131): the value of the
first candidate key present with a purely numeric value, else `none`. -/
def get_downloaded_bytes_from_manifest
    (file : Option (List (String × String))) : Option ℕ :=
  candidates.findSome? (manifestIntField (parse_manifest_kv file))

/-!
## Active-download detection (`detect_active_downloads`, lines 137–155)
-/

/-- One immediate child of `steamapps/downloading`, as observed by the scan:
its name, whether it is a directory, and the outcome of
`any(item.rglob("*"))` — `none` models the walk raising, `some entries`
the full recursive listing, each entry flagged `true` for a regular file
and `false` for a directory. -/
structure Candidate where
  name : String
  is_dir : Bool
  rglob : Option (List Bool)

/-- Lines 147–150: `has_any = any(item.rglob("*"))`, with a raised walk error
caught and replaced by `True`. -/
def hasAnyEntry (c : Candidate) : Bool :=
  match c.rglob with
  | none => true
  | some entries => !entries.isEmpty

/-- `detect_active_downloads`: if the `downloading` directory does not exist,
the empty list; otherwise the names (appids) of the children that are
directories with purely numeric names and pass `hasAnyEntry`, in iteration
order. (The per-item display-name resolution of lines 152–153 is
presentation only and carries no eligibility information.) -/
def detect_active_downloads (downloadingExists : Bool) (items : List Candidate) :
    List String :=
  if downloadingExists then
    (items.filter (fun c => c.is_dir && isdigit c.name && hasAnyEntry c)).map (·.name)
  else []

/-!
## Pause detection via logs (`detect_pause_via_logs`, lines 161–173)
-/

/-- The keyword tuple of line 169. -/
def pauseKeywords : List String := ["paused", "pause", "suspend", "suspended"]

/-- Lines 167–168: the last 2000 lines of the log, rejoined with newlines and
lowercased (`"\n".join(lines[-2000:]).lower()`). -/
def tailText (text : String) : String :=
  ⟨(joinNl (lastN 2000 (splitOnNl text.data))).map Char.toLower⟩

/-- `detect_pause_via_logs`: `false` when the log is absent or the read
raised (`none`); otherwise `true` iff the appid occurs as a substring of
the lowered tail text and some pause keyword does too (line 169). -/
def detect_pause_via_logs (log : Option String) (appid : String) : Bool :=
  match log with
  | none => false
  | some text =>
      let s := tailText text
      strHas s appid && pauseKeywords.any (fun k => strHas s k)

/-!
## Per-item poll step of `main` (lines 211–235)
-/

/-- The two cross-poll state dictionaries of `main` (lines 201–202). -/
structure PollState where
  prev_manifest_metric : List (String × ℕ)
  prev_folder_size : List (String × ℕ)

/-- Fields of one output line that the claims are about. -/
structure ItemResult where
  speed_bps : ℚ
  source : String
  status : String

/-- The poll interval of line 198, in seconds. -/
def interval : ℕ := 60

/-- The delta computation of lines 219 and 226: `max(0, current - prev)`. -/
def computeDelta (current prev : ℕ) : ℤ := max 0 ((current : ℤ) - (prev : ℤ))

/-- One per-item iteration of the polling loop (lines 211–235). `m_bytes`
is the result of `get_downloaded_bytes_from_manifest` on the item's
manifest, `folder_size` the result of `folder_size_bytes` on its staging
directory, and `paused_by_logs` the result of `detect_pause_via_logs`.
Returns the emitted fields and the updated state. -/
def pollItem (st : PollState) (appid : String) (m_bytes : Option ℕ)
    (folder_size : ℕ) (paused_by_logs : Bool) : ItemResult × PollState :=
  let (speed_bps, source, st') :=
    match m_bytes with
    | some mb =>
        let prev := (lookupA st.prev_manifest_metric appid).getD mb
        let delta := computeDelta mb prev
        (((delta : ℚ) / (interval : ℚ)), "manifest",
         { st with prev_manifest_metric := (appid, mb) :: st.prev_manifest_metric })
    | none =>
        let size_now := folder_size
        let prev := (lookupA st.prev_folder_size appid).getD size_now
        let delta := computeDelta size_now prev
        (((delta : ℚ) / (interval : ℚ)), "folder",
         { st with prev_folder_size := (appid, size_now) :: st.prev_folder_size })
  let status :=
    if speed_bps > 0 then "downloading"
    else if paused_by_logs then "paused" else "idle/paused"
  (⟨speed_bps, source, status⟩, st')

/-!
## Definitions following the spec's words

`classify_spec` restates the spec's status priority order for comparison
with the code's classification. `effective_rate` and `extract_speed`
model components the spec describes but this source variant does not
contain (its Incremental Log Reader and Speed Extractor).
-/

/-- Status classification in the spec's priority order (spec §4.5 step 6),
stated from the spec's words: `downloading` on positive effective rate,
else `staging/installing` on a positive staged-counter delta, else the
pause heuristic, else the catch-all. -/
def classify_spec (rate : ℚ) (staged_delta : ℤ) (pause_heur : Bool) : String :=
  if rate > 0 then "downloading"
  else if staged_delta > 0 then "staging/installing"
  else if pause_heur then "paused"
  else "idle/paused"

/-- Modelled from the spec: the staleness window of §4.5 step 5 ("a fixed
number of seconds, default 10"). This source variant has no Incremental
Log Reader, so no staleness logic appears in `src`. -/
def STALE_SECS : ℚ := 10

/-- Modelled from the spec: the staleness override of §4.5 step 5, absent
from this source variant. `cached_rate` is the rate figure otherwise on
hand, `now` the current time and `last_log_read` the timestamp of the
last tailed-log read that produced new bytes (seconds): when the silence
exceeds the staleness window the effective rate is forced to zero. -/
def effective_rate (cached_rate now last_log_read : ℚ) : ℚ :=
  if now - last_log_read > STALE_SECS then 0 else cached_rate

/-- The rate units the spec's Speed Extractor recognises (§4.3). -/
inductive RateUnit
  | Bs | KBs | MBs | GBs | bitps | Kbitps | Mbitps | Gbitps
deriving DecidableEq

/-- Modelled from the spec: unit conversion of the Speed Extractor (§4.3),
absent from this source variant — binary multiples (1024) for byte-units,
decimal multiples (1000) for bit-units, bit-units additionally divided
by 8. -/
def toBytesPerSec (x : ℚ) : RateUnit → ℚ
  | .Bs => x
  | .KBs => x * 1024
  | .MBs => x * 1024 * 1024
  | .GBs => x * 1024 * 1024 * 1024
  | .bitps => x / 8
  | .Kbitps => x * 1000 / 8
  | .Mbitps => x * 1000 * 1000 / 8
  | .Gbitps => x * 1000 * 1000 * 1000 / 8

/-- Modelled from the spec: the Speed Extractor (§4.3), absent from this
source variant. Its regex scan is abstracted: the argument is the list of
`<number><unit>` matches found in the text, in document order; each is
converted and the last value is returned, `none` when no match exists. -/
def extract_speed (ms : List (ℚ × RateUnit)) : Option ℚ :=
  (ms.map fun m => toBytesPerSec m.1 m.2).getLast?

/-- The spec's three-poll scenario run through `main`'s per-item step: one
item, manifest counters 1000000, 1500000, 1500000 (deltas +0, +500000,
+0), no log data, starting from the fresh state of a new process. -/
def threePollStatuses : List String :=
  let s0 : PollState := ⟨[], []⟩
  let r1 := pollItem s0 "42" (some 1000000) 0 (detect_pause_via_logs none "42")
  let r2 := pollItem r1.2 "42" (some 1500000) 0 (detect_pause_via_logs none "42")
  let r3 := pollItem r2.2 "42" (some 1500000) 0 (detect_pause_via_logs none "42")
  [r1.1.status, r2.1.status, r3.1.status]

/-!
## Theorems
-/

/-- The fold of `parse_manifest_kv` inserts exactly one pair per match. -/
theorem parse_foldl_length (ms : List (String × String))
    (acc : List (String × String)) :
    (ms.foldl (fun kv m => (trimStr m.1, trimStr m.2) :: kv) acc).length =
      acc.length + ms.length := by
  induction ms generalizing acc with
  | nil => simp
  | cons m rest ih => simp [ih]; omega

/-- C2: for every state holding prior value `prior` for an item and every
current observation `current < prior` (a counter reset), the computed
per-poll delta is 0, never negative, and the reported rate is 0 — in
manifest-counter mode and in folder-size mode alike. -/
theorem counter_reset_delta_zero (st : PollState) (appid : String)
    (prior current : ℕ) (h : current < prior) (fsize : ℕ) (pb : Bool)
    (h1 : lookupA st.prev_manifest_metric appid = some prior)
    (h2 : lookupA st.prev_folder_size appid = some prior) :
    computeDelta current prior = 0 ∧
    (pollItem st appid (some current) fsize pb).1.speed_bps = 0 ∧
    (pollItem st appid none current pb).1.speed_bps = 0 := by
  have hd : computeDelta current prior = 0 :=
    max_eq_left (by simp only [sub_nonpos]; exact_mod_cast h.le)
  refine ⟨hd, ?_, ?_⟩ <;> simp [pollItem, h1, h2, hd]

/-- Witness for `counter_reset_delta_zero` at a concrete reset (5 → 3). -/
theorem counter_reset_delta_zero_witness :
    ((3 : ℕ) < 5 ∧
     lookupA (PollState.mk [("7", 5)] [("7", 5)]).prev_manifest_metric "7" = some 5 ∧
     lookupA (PollState.mk [("7", 5)] [("7", 5)]).prev_folder_size "7" = some 5) ∧
    (computeDelta 3 5 = 0 ∧
     (pollItem (PollState.mk [("7", 5)] [("7", 5)]) "7" (some 3) 0 false).1.speed_bps = 0 ∧
     (pollItem (PollState.mk [("7", 5)] [("7", 5)]) "7" none 3 false).1.speed_bps = 0) :=
  ⟨⟨by decide, by decide, by decide⟩,
   counter_reset_delta_zero (PollState.mk [("7", 5)] [("7", 5)]) "7" 5 3
     (by decide) 0 false (by decide) (by decide)⟩

/-- C3: on the first poll in which an item id is observed (no prior state
stored for that id), the reported rate is 0 regardless of the absolute
counter or folder-size value, in both modes: the prior defaults to the
current observation, so the delta is `computeDelta x x = 0`. -/
theorem first_observation_delta_zero (st : PollState) (appid : String)
    (mb fsize : ℕ) (pb : Bool)
    (h1 : lookupA st.prev_manifest_metric appid = none)
    (h2 : lookupA st.prev_folder_size appid = none) :
    computeDelta mb mb = 0 ∧
    (pollItem st appid (some mb) fsize pb).1.speed_bps = 0 ∧
    (pollItem st appid none fsize pb).1.speed_bps = 0 := by
  have hd : ∀ x : ℕ, computeDelta x x = 0 := fun x => by simp [computeDelta]
  refine ⟨hd mb, ?_, ?_⟩ <;> simp [pollItem, h1, h2, hd]

/-- Witness for `first_observation_delta_zero`: fresh state, large counter. -/
theorem first_observation_delta_zero_witness :
    (lookupA (PollState.mk [] []).prev_manifest_metric "480" = none ∧
     lookupA (PollState.mk [] []).prev_folder_size "480" = none) ∧
    (computeDelta 123456789 123456789 = 0 ∧
     (pollItem (PollState.mk [] []) "480" (some 123456789) 55 false).1.speed_bps = 0 ∧
     (pollItem (PollState.mk [] []) "480" none 55 false).1.speed_bps = 0) :=
  ⟨⟨by decide, by decide⟩,
   first_observation_delta_zero (PollState.mk [] []) "480" 123456789 55 false
     (by decide) (by decide)⟩

/-- C5: whenever no tailed log has produced new bytes within the staleness
window (default 10 seconds), the effective rate is 0, whatever the cached
rate was. -/
theorem staleness_forces_zero_rate (cached now last : ℚ)
    (h : now - last > STALE_SECS) :
    effective_rate cached now last = 0 := by
  simp [effective_rate, h]

/-- Witness for `staleness_forces_zero_rate`: a 20-second silence zeroes a
cached rate of 100 bytes/s. -/
theorem staleness_forces_zero_rate_witness :
    ((20 : ℚ) - 0 > STALE_SECS) ∧ effective_rate 100 20 0 = 0 :=
  ⟨by norm_num [STALE_SECS],
   staleness_forces_zero_rate 100 20 0 (by norm_num [STALE_SECS])⟩

/-- C7: the Speed Extractor converts byte-units with binary multiples and
bit-units with decimal multiples divided by 8 — "1.5 MB/s" gives
1572864 bytes/s, "8 Mbps" gives 1000000 bytes/s — returns the last match
in document order ("1 MB/s" then "2 MB/s" gives the value of "2 MB/s",
and in general appending a match makes it the result), and returns
`none` when no match exists. -/
theorem speed_extractor_spec :
    extract_speed [((3 : ℚ) / 2, RateUnit.MBs)] = some 1572864 ∧
    extract_speed [(8, RateUnit.Mbitps)] = some 1000000 ∧
    extract_speed [(1, RateUnit.MBs), (2, RateUnit.MBs)] = some 2097152 ∧
    extract_speed ([] : List (ℚ × RateUnit)) = none ∧
    ∀ (ms : List (ℚ × RateUnit)) (x : ℚ) (u : RateUnit),
      extract_speed (ms ++ [(x, u)]) = some (toBytesPerSec x u) := by
  refine ⟨?_, ?_, ?_, by simp [extract_speed], fun ms x u => ?_⟩ <;>
    norm_num [extract_speed, toBytesPerSec,
      List.getLast?_cons_cons, List.getLast?_singleton]

/-- C1: every emitted status agrees with the spec's priority classification
instantiated with a staged-counter delta of 0 (this source variant never
computes a staged counter, so that tier can never fire): `downloading` on
positive rate, else `paused` when the log heuristic fires, else
`idle/paused`. Moreover the spec's three-poll scenario (manifest deltas
+0, +500000, +0, no log data) yields exactly
(idle/paused, downloading, idle/paused). -/
theorem status_classification_priority :
    (∀ (st : PollState) (appid : String) (m_bytes : Option ℕ) (fsize : ℕ)
       (log : Option String),
       (pollItem st appid m_bytes fsize (detect_pause_via_logs log appid)).1.status =
         classify_spec
           (pollItem st appid m_bytes fsize (detect_pause_via_logs log appid)).1.speed_bps
           0 (detect_pause_via_logs log appid)) ∧
    threePollStatuses = ["idle/paused", "downloading", "idle/paused"] := by
  constructor
  · intro st appid m_bytes fsize log
    cases m_bytes <;> simp [pollItem, classify_spec]
  · norm_num [threePollStatuses, pollItem, detect_pause_via_logs, lookupA,
      computeDelta, interval]

/-- C9: the manifest reader returns the empty mapping exactly when the file
is absent, unreadable, or holds no quoted `"key" "value"` pair; and the
integer-field helper yields a value precisely when the key is present
with a purely numeric raw string, returning its decimal reading (it is a
total function: non-numeric content gives `none`, never an exception). -/
theorem manifest_reader_robustness :
    parse_manifest_kv none = [] ∧
    (∀ ms, parse_manifest_kv (some ms) = [] ↔ ms = []) ∧
    (∀ (kv : List (String × String)) (key : String) (v : ℕ),
       manifestIntField kv key = some v ↔
         ∃ s, lookupA kv key = some s ∧ isdigit s = true ∧ strToNat s = v) := by
  refine ⟨rfl, fun ms => ?_, fun kv key v => ?_⟩
  · rw [← List.length_eq_zero, ← List.length_eq_zero (l := ms)]
    show (ms.foldl (fun kv m => (trimStr m.1, trimStr m.2) :: kv) []).length = 0 ↔ _
    rw [parse_foldl_length]
    simp
  · unfold manifestIntField
    cases h : lookupA kv key with
    | none => simp
    | some s => by_cases hd : isdigit s <;> simp [hd]

/-- C10: the log pause detector fires exactly when the log file could be
read and the item's id occurs somewhere in the lowercased joined last
2000 lines while some pause/suspend keyword occurs somewhere in those
same lines — not necessarily on the same line, as the concrete conjunct
shows — and it returns `false` whenever the log is absent or the read
raised. -/
theorem pause_detector_characterization :
    (∀ (log : Option String) (appid : String),
       detect_pause_via_logs log appid = true ↔
         ∃ text, log = some text ∧ strHas (tailText text) appid = true ∧
           ∃ k ∈ pauseKeywords, strHas (tailText text) k = true) ∧
    detect_pause_via_logs (some "123 running\nother app pause") "123" = true ∧
    detect_pause_via_logs none "123" = false := by
  refine ⟨fun log appid => ?_, by decide, by decide⟩
  cases log with
  | none => simp [detect_pause_via_logs]
  | some text => simp [detect_pause_via_logs, List.any_eq_true]

/-- C4 counterexample: a manifest whose only pair is `"SizeOnDisk" "100"`
has no `BytesDownloaded` key, yet the poll runs in manifest-counter mode
(`source = "manifest"`), not folder-size mode: the downloaded-bytes
helper accepts any of six candidate keys, not only the primary one. -/
theorem folder_mode_iff_primary_cex :
    lookupA (parse_manifest_kv (some [("SizeOnDisk", "100")])) "BytesDownloaded"
        = none ∧
    get_downloaded_bytes_from_manifest (some [("SizeOnDisk", "100")]) = some 100 ∧
    (pollItem ⟨[], []⟩ "1"
        (get_downloaded_bytes_from_manifest (some [("SizeOnDisk", "100")])) 0
        false).1.source = "manifest" :=
  ⟨by decide, by decide, by decide⟩

/-- C4 amended: folder-size mode is used if and only if *no* candidate key
(`BytesDownloaded`, `bytesdownloaded`, `DownloadedBytes`,
`downloaded_bytes`, `BytesToDownload`, `SizeOnDisk`) carries a purely
numeric value in the manifest; when some candidate does, the rate is
derived from the delta of the first such key's value against the stored
prior (which defaults to the current value). -/
theorem folder_mode_iff_no_numeric_candidate
    (file : Option (List (String × String))) (st : PollState) (appid : String)
    (fsize : ℕ) (pb : Bool) :
    ((pollItem st appid (get_downloaded_bytes_from_manifest file) fsize pb).1.source
        = "folder" ↔
      ∀ k ∈ candidates, manifestIntField (parse_manifest_kv file) k = none) ∧
    (∀ v, get_downloaded_bytes_from_manifest file = some v →
      (pollItem st appid (get_downloaded_bytes_from_manifest file) fsize pb).1.speed_bps
        = (computeDelta v ((lookupA st.prev_manifest_metric appid).getD v) : ℚ)
            / (interval : ℚ)) := by
  constructor
  · rw [← List.findSome?_eq_none_iff]
    cases h : get_downloaded_bytes_from_manifest file with
    | none =>
        unfold get_downloaded_bytes_from_manifest at h
        simp [pollItem, get_downloaded_bytes_from_manifest, h]
    | some v =>
        unfold get_downloaded_bytes_from_manifest at h
        simp [pollItem, get_downloaded_bytes_from_manifest, h]
  · intro v h
    simp [pollItem, h]

/-- C6 counterexample: a numeric-named directory candidate whose recursive
walk raises is *included* in the active set (line 150 replaces the failed
walk by `has_any = True`), contradicting "treated as non-eligible"; the
scan of the remaining candidates does continue. -/
theorem walk_error_candidate_cex :
    detect_active_downloads true
      [⟨"123", true, none⟩, ⟨"456", true, some [true]⟩] = ["123", "456"] := by
  decide

/-- C6 amended: a directory-walk error while examining an individual
candidate is swallowed and does not abort the scan — the remaining
candidates are processed exactly as without the error — but the erroring
candidate (a directory with purely numeric name) is treated as
*eligible* and included in the returned active set. -/
theorem walk_error_swallowed_and_included (pre post : List Candidate)
    (c : Candidate) (h1 : c.is_dir = true) (h2 : isdigit c.name = true)
    (h3 : c.rglob = none) :
    detect_active_downloads true (pre ++ c :: post) =
      detect_active_downloads true pre ++
        c.name :: detect_active_downloads true post := by
  simp [detect_active_downloads, List.filter_append, hasAnyEntry, h1, h2, h3]

/-- Witness for `walk_error_swallowed_and_included` at a concrete scan. -/
theorem walk_error_swallowed_and_included_witness :
    ((Candidate.mk "123" true none).is_dir = true ∧
     isdigit (Candidate.mk "123" true none).name = true ∧
     (Candidate.mk "123" true none).rglob = none) ∧
    detect_active_downloads true
        ([⟨"7", true, some [true]⟩] ++
          Candidate.mk "123" true none :: [⟨"9", true, some [true]⟩]) =
      detect_active_downloads true [⟨"7", true, some [true]⟩] ++
        "123" :: detect_active_downloads true [⟨"9", true, some [true]⟩] :=
  ⟨⟨rfl, by decide, rfl⟩,
   walk_error_swallowed_and_included [⟨"7", true, some [true]⟩]
     [⟨"9", true, some [true]⟩] (Candidate.mk "123" true none)
     rfl (by decide) rfl⟩

/-- C8 counterexample: a numeric-named candidate directory whose recursive
listing holds one directory entry and no file at all is nonetheless in
the active set: `any(item.rglob("*"))` counts entries of any kind, not
only files. -/
theorem active_set_files_only_cex :
    (([false] : List Bool).any (fun b => b) = false) ∧
    detect_active_downloads true [⟨"123", true, some [false]⟩] = ["123"] :=
  ⟨by decide, by decide⟩

/-- C8 amended: the active set contains exactly the names of the immediate
children of the staging directory that are directories with purely
numeric names and whose recursive walk yields at least one entry of any
kind — file or directory — or raises (errors count as eligible); an
empty candidate directory (empty recursive listing) is still excluded,
and nothing is returned when the staging directory does not exist. -/
theorem active_set_characterization (downloadingExists : Bool)
    (items : List Candidate) (n : String) :
    (n ∈ detect_active_downloads downloadingExists items ↔
      downloadingExists = true ∧ ∃ c ∈ items, c.name = n ∧ c.is_dir = true ∧
        isdigit c.name = true ∧ hasAnyEntry c = true) ∧
    (∀ (name : String) (d : Bool), hasAnyEntry ⟨name, d, some []⟩ = false) := by
  refine ⟨?_, fun name d => rfl⟩
  cases downloadingExists with
  | false => simp [detect_active_downloads]
  | true =>
      simp only [detect_active_downloads, if_true, List.mem_map, List.mem_filter,
        Bool.and_eq_true]
      aesop

end SteamMonitor
